import Mathlib

/-!
Verification development for the DQS repository's Data Quality Intelligence
(DQI) engine (`src/lib/dqiEngine.ts`, revision with the aggressive penalty
factors, i.e. the revision whose scorer formulas the design document lists:
completeness `100 − defectRate×150`, uniqueness `duplicateRate×300 +
idNonUniqueRatio×20`, timeliness applicable when a column is date-typed or
date-named, uniqueness always applicable).

The engine is embedded shallowly:
* JavaScript strings are Lean `String`s, manipulated through their `List Char`
  data (ASCII inputs; the JS Unicode richness of `trim`/`toLowerCase` is not
  exercised by the analysed inputs);
* JS numbers are `ℚ`; on every concrete input analysed below each `Math.round`
  argument sits far from a half-integer (the nearest tie is several hundredths
  away, versus double rounding error of order 1e-13), so the exact-rational
  values coincide with the engine's IEEE-double evaluation;
* `Math.round` is `jround` (half-up rounding, as in JS);
* a parsed CSV row (a JS object mapping column name to cell value) is an
  association list in key-insertion order; `JSON.stringify` row keys are
  injective on such rows, so full-row duplicate detection compares rows
  directly;
* the regular expressions of the engine are embedded by a small existence
  semantics matcher (`Pat`), which is equivalent to JS `RegExp.test` for the
  backtracking-free questions asked here.
-/

/-- JS `Math.round`: round half toward positive infinity. -/
def jround (q : ℚ) : ℤ := ⌊q + 1/2⌋

/-- JS `Math.round(q * 100) / 100`: rounding to two decimals, used throughout the
engine for ratios and statistics. -/
def round2 (q : ℚ) : ℚ := (jround (q * 100) : ℚ) / 100

/-- The whitespace characters recognised by the embedded `trim` /
the `\s` character class (ASCII subset of the JS definition). -/
def isJsSpace (c : Char) : Bool :=
  c == ' ' || c == '\t' || c == '\n' || c == '\r' || c == '\x0b' || c == '\x0c'

/-- JS `String.prototype.trim` on the character list. -/
def trimChars (l : List Char) : List Char :=
  ((l.dropWhile isJsSpace).reverse.dropWhile isJsSpace).reverse

def strTrim (s : String) : String := ⟨trimChars s.data⟩

/-- JS `String.prototype.toLowerCase` (ASCII). -/
def lowerStr (s : String) : String := ⟨s.data.map Char.toLower⟩

/-- Contiguous-sublist test on character lists (JS `String.prototype.includes`). -/
def charsContain (hay needle : List Char) : Bool :=
  needle.isPrefixOf hay ||
    match hay with
    | [] => false
    | _ :: t => charsContain t needle

/-- JS `hay.includes(needle)`. -/
def strIncludes (hay needle : String) : Bool := charsContain hay.data needle.data

/-- JS `hay.endsWith(needle)`. -/
def strEndsWith (hay needle : String) : Bool := needle.data.isSuffixOf hay.data

/-- Split a character list at every occurrence of `sep`
(JS `String.prototype.split` with a single-character separator:
`"".split` gives `[""]`, a trailing separator gives a trailing `""`). -/
def splitChars (sep : Char) : List Char → List (List Char)
  | [] => [[]]
  | c :: rest =>
    let r := splitChars sep rest
    if c == sep then [] :: r
    else
      match r with
      | [] => [[c]]
      | h :: t => (c :: h) :: t

-- ===========================================================================
-- Regular-expression embedding
-- ===========================================================================

/-- JS `\w` (word character): `[A-Za-z0-9_]`. -/
def isWordChar (c : Char) : Bool := c.isAlphanum || c == '_'

/-- Regular-expression fragments used by the engine.  `rep p lo hi` is the
bounded/unbounded repetition of a single character class (the only kind of
repetition the engine's patterns contain), `wb` is the `\b` word-boundary
anchor and `eos` the `$` end anchor. -/
inductive Pat where
  | cls (p : Char → Bool)
  | seq (a b : Pat)
  | alt (a b : Pat)
  | opt (a : Pat)
  | rep (p : Char → Bool) (lo : Nat) (hi : Option Nat)
  | wb
  | eos

def decOpt : Option Nat → Option Nat
  | none => none
  | some n => some (n - 1)

/-- Existence-semantics matcher for a character-class repetition, in
continuation-passing style.  The continuation receives the previous character
(for later `\b` anchors) and the remaining input. -/
def repMatch (p : Char → Bool) (lo : Nat) (hi : Option Nat) (prev : Option Char)
    (l : List Char) (k : Option Char → List Char → Bool) : Bool :=
  match l, lo with
  | [], 0 => k prev []
  | [], _ + 1 => false
  | c :: rest, 0 =>
    k prev (c :: rest) ||
      (!(hi == some 0) && p c && repMatch p 0 (decOpt hi) (some c) rest k)
  | c :: rest, lo' + 1 =>
    !(hi == some 0) && p c && repMatch p lo' (decOpt hi) (some c) rest k

/-- Existence-semantics matcher: `patMatch pat prev l k` holds when some
decomposition of a prefix of `l` matches `pat` and `k` accepts the rest.
This coincides with JS backtracking `RegExp` matching for the patterns used
here (no capture groups, no possessive operators). -/
def patMatch : Pat → Option Char → List Char → (Option Char → List Char → Bool) → Bool
  | .cls p, _, l, k =>
    match l with
    | [] => false
    | c :: rest => p c && k (some c) rest
  | .seq a b, prev, l, k => patMatch a prev l (fun pv rest => patMatch b pv rest k)
  | .alt a b, prev, l, k => patMatch a prev l k || patMatch b prev l k
  | .opt a, prev, l, k => k prev l || patMatch a prev l k
  | .rep p lo hi, prev, l, k => repMatch p lo hi prev l k
  | .wb, prev, l, k =>
    (match prev with | none => false | some c => isWordChar c) !=
        (match l with | [] => false | c :: _ => isWordChar c)
      && k prev l
  | .eos, prev, l, k => l.isEmpty && k prev l

/-- Unanchored search (JS `RegExp.prototype.test` of a pattern without `^`). -/
def patSearch (pat : Pat) (prev : Option Char) (l : List Char) : Bool :=
  patMatch pat prev l (fun _ _ => true) ||
    match l with
    | [] => false
    | c :: rest => patSearch pat (some c) rest

/-- JS `pattern.test(s)` for an unanchored pattern. -/
def regexTest (pat : Pat) (s : String) : Bool := patSearch pat none s.data

/-- JS `pattern.test(s)` for a `^`-anchored pattern (prefix match). -/
def regexTestAt0 (pat : Pat) (s : String) : Bool :=
  patMatch pat none s.data (fun _ _ => true)

/-- JS `pattern.test(s)` for a `^...$` pattern (whole-string match). -/
def regexTestFull (pat : Pat) (s : String) : Bool :=
  patMatch pat none s.data (fun _ rest => rest.isEmpty)

def pChar (c : Char) : Pat := .cls (fun x => x == c)

def pEps : Pat := .rep (fun _ => false) 0 (some 0)

def pSeq (l : List Pat) : Pat := l.foldr .seq pEps

/-- Case-insensitive literal string (for the `/i` currency suffixes). -/
def pStrCI (s : String) : Pat :=
  pSeq (s.data.map (fun c => Pat.cls (fun x => x.toLower == c.toLower)))

def isDig (c : Char) : Bool := c.isDigit

/-- Class `[-\s]`, the separator class inside the PAN/phone patterns. -/
def isDashSpace (c : Char) : Bool := c == '-' || isJsSpace c

def pDigits (n : Nat) : Pat := .rep isDig n (some n)

-- ===========================================================================
-- SENSITIVE_PATTERNS (src: `const SENSITIVE_PATTERNS = { PAN, CVV, SSN,
-- EMAIL, PHONE }`)
-- ===========================================================================

/-- Pattern `PAN: /\b(?:\d{4}[-\s]?){3}\d{4}\b/`. -/
def panPat : Pat :=
  pSeq [.wb, pDigits 4, .opt (.cls isDashSpace), pDigits 4, .opt (.cls isDashSpace),
        pDigits 4, .opt (.cls isDashSpace), pDigits 4, .wb]

/-- Pattern `CVV: /\b\d{3,4}\b/`. -/
def cvvPat : Pat := pSeq [.wb, .rep isDig 3 (some 4), .wb]

/-- Pattern `SSN: /\b\d{3}-\d{2}-\d{4}\b/`. -/
def ssnPat : Pat :=
  pSeq [.wb, pDigits 3, pChar '-', pDigits 2, pChar '-', pDigits 4, .wb]

/-- Pattern `EMAIL: /\b[A-Za-z0-9._%+-]+@[A-Za-z0-9.-]+\.[A-Z|a-z]{2,}\b/` (note that
the source's final character class literally contains `|`). -/
def emailPat : Pat :=
  pSeq [.wb,
        .rep (fun c => c.isAlphanum || c == '.' || c == '_' || c == '%' || c == '+' || c == '-') 1 none,
        pChar '@',
        .rep (fun c => c.isAlphanum || c == '.' || c == '-') 1 none,
        pChar '.',
        .rep (fun c => c.isAlpha || c == '|') 2 none,
        .wb]

/-- Pattern `PHONE: /\b(?:\+?1[-.\s]?)?\(?\d{3}\)?[-.\s]?\d{3}[-.\s]?\d{4}\b/`. -/
def phonePat : Pat :=
  pSeq [.wb,
        .opt (pSeq [.opt (pChar '+'), pChar '1', .opt (.cls (fun c => c == '-' || c == '.' || isJsSpace c))]),
        .opt (pChar '('), pDigits 3, .opt (pChar ')'),
        .opt (.cls (fun c => c == '-' || c == '.' || isJsSpace c)),
        pDigits 3,
        .opt (.cls (fun c => c == '-' || c == '.' || isJsSpace c)),
        pDigits 4, .wb]

def panTest (s : String) : Bool := regexTest panPat s
def cvvTest (s : String) : Bool := regexTest cvvPat s
def ssnTest (s : String) : Bool := regexTest ssnPat s
def emailTest (s : String) : Bool := regexTest emailPat s
def phoneTest (s : String) : Bool := regexTest phonePat s

-- ===========================================================================
-- Sensitive column names and redaction (src: SENSITIVE_COLUMN_NAMES,
-- isSensitiveColumn, redactSensitiveValue)
-- ===========================================================================

def SENSITIVE_COLUMN_NAMES : List String :=
  ["pan", "card_number", "cardnumber", "card_no", "cc_number",
   "cvv", "cvc", "security_code", "ssn", "social_security",
   "password", "pin", "secret", "token", "auth_code"]

/-- JS `name.replace(/[_\-\s]/g, '')`: drop underscores, dashes and whitespace. -/
def stripSeps (s : String) : String :=
  ⟨s.data.filter (fun c => !(c == '_' || c == '-' || isJsSpace c))⟩

/-- src `isSensitiveColumn`: the separator-stripped lowercase column name
contains some separator-stripped entry of the sensitive-name list. -/
def isSensitiveColumn (name : String) : Bool :=
  SENSITIVE_COLUMN_NAMES.any (fun s => strIncludes (stripSeps (lowerStr name)) (stripSeps s))

def redactionMarker : String := "***REDACTED***"

/-- src `redactSensitiveValue`: sensitive-named column, or a value matched by
any sensitive pattern (tested in the source's insertion order PAN, CVV, SSN,
EMAIL, PHONE — all branches yield the same marker), otherwise truncation past
50 characters. -/
def redactSensitiveValue (value : String) (columnName : String) : String :=
  if isSensitiveColumn columnName then redactionMarker
  else if panTest value || cvvTest value || ssnTest value || emailTest value || phoneTest value then
    redactionMarker
  else if 50 < value.data.length then ⟨value.data.take 47⟩ ++ "..."
  else value

-- ===========================================================================
-- Grade (src: calculateGrade)
-- ===========================================================================

inductive Grade where
  | A | B | C | D | F
deriving DecidableEq

/-- src `calculateGrade`. -/
def calculateGrade (score : ℚ) : Grade :=
  if 90 ≤ score then .A
  else if 80 ≤ score then .B
  else if 70 ≤ score then .C
  else if 60 ≤ score then .D
  else .F

-- ===========================================================================
-- Cell values and CSV parsing (src: ParsedRow, parseCSVContent, parseCSVLine,
-- parseValue)
-- ===========================================================================

/-- A normalized cell value (`string | number | boolean | null`). -/
inductive Value where
  | null
  | num (q : ℚ)
  | bool (b : Bool)
  | str (s : String)
deriving DecidableEq

/-- A parsed row: the JS object `{ [header]: value }` as an association list in
key-insertion order.  `JSON.stringify` is injective on rows built over the same
header sequence, so rows are compared directly where the source compares their
serializations. -/
abbrev RowObj : Type := List (String × Value)

/-- JS property read `row[header]` (`undefined`, i.e. an absent key, behaves
like `null` everywhere the engine reads rows).  Object assignment keeps the
last write, hence the reversed search. -/
def rowGet (r : RowObj) (h : String) : Value :=
  match (r.reverse.find? (fun p => p.1 == h)) with
  | some p => p.2
  | none => .null

/-- JS object assignment `r[k] = v`: overwrite in place or append. -/
def objSet (r : RowObj) (k : String) (v : Value) : RowObj :=
  if r.any (fun p => p.1 == k) then r.map (fun p => if p.1 == k then (k, v) else p)
  else r ++ [(k, v)]

/-- JS `value.replace(/^"|"$/g, '')`: strip one leading and one trailing quote. -/
def stripWrapQuotes (s : String) : String :=
  let l := s.data
  let l := match l with
    | '"' :: rest => rest
    | _ => l
  let l := match l.reverse with
    | '"' :: rest => rest.reverse
    | _ => l
  ⟨l⟩

/-- src `parseCSVLine`: quote-aware splitting on commas; quote characters
toggle the in-quotes mode and are not emitted; each field is trimmed and a
wrapping quote pair is stripped. -/
def parseCSVLineAux (inQuotes : Bool) (current : List Char) (acc : List String) :
    List Char → List String
  | [] => (acc ++ [stripWrapQuotes (strTrim ⟨current.reverse⟩)])
  | c :: rest =>
    if c == '"' then parseCSVLineAux (!inQuotes) current acc rest
    else if c == ',' && !inQuotes then
      parseCSVLineAux inQuotes [] (acc ++ [stripWrapQuotes (strTrim ⟨current.reverse⟩)]) rest
    else parseCSVLineAux inQuotes (c :: current) acc rest

def parseCSVLine (line : String) : List String :=
  parseCSVLineAux false [] [] line.data

/-- Decimal-literal model of JS `Number(string)` restricted to the forms the
engine's inputs exercise: optional surrounding whitespace, empty string is 0,
optional sign, then `digits[.digits] | .digits`, with an optional decimal
exponent.  (Hex literals and `Infinity` are out of scope and map to `none`,
i.e. `NaN` in the engine's `isNaN` guard — the analysed claims never feed such
strings to the numeric branch.) -/
def takeDigits (l : List Char) : List Char × List Char :=
  (l.takeWhile isDig, l.dropWhile isDig)

def digitsToNat (l : List Char) : ℕ :=
  l.foldl (fun a c => a * 10 + (c.toNat - '0'.toNat)) 0

def parseExponent (l : List Char) : Option ℤ :=
  match l with
  | [] => some 0
  | e :: rest =>
    if e == 'e' || e == 'E' then
      let (sgn, rest') : ℤ × List Char :=
        match rest with
        | '+' :: r => (1, r)
        | '-' :: r => (-1, r)
        | r => (1, r)
      let (ds, rest'') := takeDigits rest'
      if ds.isEmpty || !rest''.isEmpty then none
      else some (sgn * digitsToNat ds)
    else none

def parseMantissa (l : List Char) : Option (ℚ × List Char) :=
  let (intDs, rest) := takeDigits l
  match rest with
  | '.' :: rest' =>
    let (fracDs, rest'') := takeDigits rest'
    if intDs.isEmpty && fracDs.isEmpty then none
    else some ((digitsToNat intDs : ℚ) + (digitsToNat fracDs : ℚ) / (10 ^ fracDs.length : ℕ), rest'')
  | _ => if intDs.isEmpty then none else some ((digitsToNat intDs : ℚ), rest)

def jsStringToNumber (s : String) : Option ℚ :=
  let t := trimChars s.data
  if t.isEmpty then some 0
  else
    let (sgn, t') : ℚ × List Char :=
      match t with
      | '+' :: r => (1, r)
      | '-' :: r => (-1, r)
      | r => (1, r)
    match parseMantissa t' with
    | none => none
    | some (m, rest) =>
      match parseExponent rest with
      | none => none
      | some e => some (sgn * m * ((10 : ℚ) ^ e))

/-- JS `trimmed.replace(/[$,]/g, '')`. -/
def stripDollarComma (s : String) : String :=
  ⟨s.data.filter (fun c => !(c == '$' || c == ','))⟩

/-- Test `/^0\d+/.test(s)`: a leading-zero integer-like prefix. -/
def leadingZeroTest (s : String) : Bool :=
  match s.data with
  | '0' :: c :: _ => isDig c
  | _ => false

/-- src `parseValue`: null tokens, then the numeric attempt (separator-stripped
`Number`, rejected for leading-zero literals), then booleans, else the string. -/
def parseValue (value : String) : Value :=
  let trimmed := stripWrapQuotes (strTrim value)
  if trimmed == "" || lowerStr trimmed == "null" || lowerStr trimmed == "na" || trimmed == "-" then
    .null
  else
    match jsStringToNumber (stripDollarComma trimmed) with
    | some n =>
      if !leadingZeroTest trimmed then .num n
      else if lowerStr trimmed == "true" then .bool true
      else if lowerStr trimmed == "false" then .bool false
      else .str trimmed
    | none =>
      if lowerStr trimmed == "true" then .bool true
      else if lowerStr trimmed == "false" then .bool false
      else .str trimmed

/-- src `parseCSVContent`: trim, split into lines, first line is the header;
a data line is kept only when its field count equals the header's. -/
def parseCSVContent (content : String) : List String × List RowObj :=
  let lines := (splitChars '\n' (trimChars content.data)).map (fun l => String.mk l)
  match lines with
  | [] => ([], [])
  | l0 :: rest =>
    let headers := parseCSVLine l0
    let rows := rest.filterMap (fun ln =>
      let values := parseCSVLine ln
      if values.length == headers.length then
        some (headers.enum.foldl (fun r hv => objSet r hv.2 (parseValue (values.getD hv.1 ""))) [])
      else none)
    (headers, rows)

-- ===========================================================================
-- String form of a value (JS `String(v)`), used for distinct counts and
-- sample redaction
-- ===========================================================================

def natDigits (n : ℕ) : List Char :=
  (toString n).data

/-- Decimal expansion of the fractional part, 20 digits of precision with
trailing zeros trimmed (exact for the finite-decimal numbers the engine's
parser produces, where this agrees with JS shortest-representation printing). -/
def fracDigitsAux : ℕ → ℚ → List Char
  | 0, _ => []
  | fuel + 1, q =>
    if q == 0 then []
    else
      let q10 := q * 10
      let d : ℤ := ⌊q10⌋
      (Char.ofNat ('0'.toNat + d.toNat)) :: fracDigitsAux fuel (q10 - d)

def numToStringPos (q : ℚ) : String :=
  let ip : ℕ := (⌊q⌋).toNat
  let fp := q - (ip : ℚ)
  if fp == 0 then ⟨natDigits ip⟩
  else ⟨natDigits ip ++ '.' :: fracDigitsAux 20 fp⟩

def numToString (q : ℚ) : String :=
  if q < 0 then "-" ++ numToStringPos (-q)
  else numToStringPos q

/-- JS `String(v)` on a cell value. -/
def valueToString (v : Value) : String :=
  match v with
  | .null => "null"
  | .num q => numToString q
  | .bool true => "true"
  | .bool false => "false"
  | .str s => s

-- ===========================================================================
-- Schema extraction (src: inferColumnType, detectPatterns,
-- calculateNumericStatistics, extractColumnSchema)
-- ===========================================================================

inductive InferredType where
  | str | num | date | bool | currency | identifier | mixed
deriving DecidableEq

/-- Pattern `/^\$?[\d,]+\.?\d*$/`. -/
def currencyPat1 : Pat :=
  pSeq [.opt (pChar '$'), .rep (fun c => isDig c || c == ',') 1 none,
        .opt (pChar '.'), .rep isDig 0 none]

/-- Pattern `/^[\d,]+\.?\d*\s*(USD|EUR|GBP|INR)$/i`. -/
def currencyPat2 : Pat :=
  pSeq [.rep (fun c => isDig c || c == ',') 1 none, .opt (pChar '.'), .rep isDig 0 none,
        .rep isJsSpace 0 none,
        .alt (pStrCI "USD") (.alt (pStrCI "EUR") (.alt (pStrCI "GBP") (pStrCI "INR")))]

/-- Pattern `/^\d{4}-\d{2}-\d{2}/`. -/
def datePat1 : Pat := pSeq [pDigits 4, pChar '-', pDigits 2, pChar '-', pDigits 2]

/-- Pattern `/^\d{2}\/\d{2}\/\d{4}/`. -/
def datePat2 : Pat := pSeq [pDigits 2, pChar '/', pDigits 2, pChar '/', pDigits 4]

/-- Pattern `/^\d{2}-\d{2}-\d{4}/`. -/
def datePat3 : Pat := pSeq [pDigits 2, pChar '-', pDigits 2, pChar '-', pDigits 4]

/-- Pattern `/^[A-Z0-9\-_]+$/i`. -/
def identifierPat : Pat :=
  pSeq [.rep (fun c => c.isAlpha || isDig c || c == '-' || c == '_') 1 none]

/-- The per-string classification inside src `inferColumnType`'s loop:
currency-like, else date-like, else identifier-like (when the column name has
an identifier hint), else plain string. -/
def classifyString (isLikelyIdentifier : Bool) (s : String) : InferredType :=
  if regexTestFull currencyPat1 s || regexTestFull currencyPat2 s then .currency
  else if regexTestAt0 datePat1 s || regexTestAt0 datePat2 s || regexTestAt0 datePat3 s then .date
  else if isLikelyIdentifier && regexTestFull identifierPat s then .identifier
  else .str

/-- Category of one non-null value in src `inferColumnType`'s tally loop. -/
def classifyValue (isLikelyIdentifier : Bool) (v : Value) : InferredType :=
  match v with
  | .num _ => .num
  | .bool _ => .bool
  | .str s => classifyString isLikelyIdentifier s
  | .null => .str

def identifierHints : List String := ["id", "key", "code", "ref", "num", "no"]

def nonNullValues (values : List Value) : List Value :=
  values.filter (fun v => !(v == .null))

/-- The tally map of src `inferColumnType`, as a count per category.  The
source iterates a `Map` in insertion order keeping the first maximum under a
strict `>`; a tie between two categories forces `maxCount/n ≤ 1/2 < 0.8` with
`types.size > 1`, so the `mixed` branch fires and the tie-break order is
unobservable — a fixed category order is therefore an equivalent embedding. -/
def typeTallies (isLikelyIdentifier : Bool) (nonNull : List Value) :
    List (InferredType × ℕ) :=
  [InferredType.num, .bool, .currency, .date, .identifier, .str].map
    (fun t => (t, nonNull.countP (fun v => classifyValue isLikelyIdentifier v == t)))

def pickDominant (l : List (InferredType × ℕ)) : InferredType × ℕ :=
  l.foldl (fun acc e => if acc.2 < e.2 then e else acc) (.str, 0)

/-- src `inferColumnType`. -/
def inferColumnType (values : List Value) (columnName : String) : InferredType :=
  let nonNull := nonNullValues values
  if nonNull.isEmpty then .str
  else
    let isLikelyIdentifier :=
      identifierHints.any (fun p => strIncludes (lowerStr columnName) p)
    let tallies := typeTallies isLikelyIdentifier nonNull
    let m := pickDominant tallies
    let typesPresent := tallies.countP (fun e => 0 < e.2)
    if (m.2 : ℚ) / (nonNull.length : ℚ) < 8/10 && 1 < typesPresent then .mixed
    else m.1

/-- Pattern `/^\$[\d,]+\.?\d*$/` (the `$XXX.XX` display pattern). -/
def displayCurrencyPat : Pat :=
  pSeq [pChar '$', .rep (fun c => isDig c || c == ',') 1 none,
        .opt (pChar '.'), .rep isDig 0 none]

/-- Pattern `/^[A-Z]{2,3}$/`. -/
def countryCodePat : Pat := pSeq [.rep (fun c => c.isUpper) 2 (some 3)]

/-- Pattern `/^[A-Z]{3}\d+$/`. -/
def alnumIdPat : Pat := pSeq [.rep (fun c => c.isUpper) 3 (some 3), .rep isDig 1 none]

def addTag (acc : List String) (hit : Bool) (tag : String) : List String :=
  if hit && !acc.contains tag then acc ++ [tag] else acc

/-- src `detectPatterns`: scan the first 100 string values, collecting format
tags into a set (embedded as a first-detection-ordered duplicate-free list). -/
def detectPatterns (values : List Value) : List String :=
  let stringValues := (values.filterMap (fun v => match v with | .str s => some s | _ => none)).take 100
  stringValues.foldl (fun acc val =>
    let acc := addTag acc (regexTestAt0 datePat1 val) "YYYY-MM-DD"
    let acc := addTag acc (regexTestAt0 datePat2 val) "MM/DD/YYYY"
    let acc := addTag acc (regexTestAt0 datePat3 val) "DD-MM-YYYY"
    let acc := addTag acc (regexTestFull displayCurrencyPat val) "$XXX.XX"
    let acc := addTag acc (regexTestFull countryCodePat val) "COUNTRY/CURRENCY_CODE"
    addTag acc (regexTestFull alnumIdPat val) "ALPHANUMERIC_ID") []

structure NumericStatistics where
  min : ℚ
  max : ℚ
  mean : ℚ
  median : ℚ
  stdDev : ℚ
deriving DecidableEq

/-- JS `Math.round(100 * Math.sqrt q) / 100` computed exactly over `ℚ` (`q ≥ 0`):
with `q = a/b`, `100·√q = √(10000·a·b)/b` and
`⌊√(10000ab)/b + 1/2⌋ = ⌊(⌊√(40000ab)⌋ + b) / (2b)⌋`. -/
def sqrtRound2 (q : ℚ) : ℚ :=
  ((Nat.sqrt (40000 * q.num.toNat * q.den) + q.den) / (2 * q.den) : ℕ) / 100

/-- src `calculateNumericStatistics` (ascending numeric sort, population
standard deviation, all results rounded to 2 decimals). -/
def calculateNumericStatistics (values : List ℚ) : NumericStatistics :=
  if values.isEmpty then ⟨0, 0, 0, 0, 0⟩
  else
    let sorted := values.insertionSort (· ≤ ·)
    let mn := sorted.getD 0 0
    let mx := sorted.getD (sorted.length - 1) 0
    let mean := values.sum / (values.length : ℚ)
    let median :=
      if sorted.length % 2 == 0 then
        (sorted.getD (sorted.length / 2 - 1) 0 + sorted.getD (sorted.length / 2) 0) / 2
      else sorted.getD (sorted.length / 2) 0
    let variance := ((values.map (fun v => (v - mean) ^ 2)).sum) / (values.length : ℚ)
    ⟨round2 mn, round2 mx, round2 mean, round2 median, sqrtRound2 variance⟩

structure ColumnSchema where
  name : String
  inferredType : InferredType
  nullRatio : ℚ
  uniqueRatio : ℚ
  sampleValues : List String
  patterns : List String
  statistics : Option NumericStatistics
deriving DecidableEq

def numericValuesOf (values : List Value) : List ℚ :=
  values.filterMap (fun v => match v with | .num q => some q | _ => none)

/-- src `extractColumnSchema` (distinct counting via `new Set(map(String))`,
first-3 redacted samples, 2-decimal ratios, statistics for numeric/currency
columns with at least one numeric value). -/
def extractColumnSchema (header : String) (values : List Value) : ColumnSchema :=
  let nonNull := nonNullValues values
  let uniqueCount := ((nonNull.map valueToString).dedup).length
  let inferredType := inferColumnType values header
  let sampleValues := (nonNull.take 3).map (fun v => redactSensitiveValue (valueToString v) header)
  { name := header
    inferredType := inferredType
    nullRatio := round2 (1 - (nonNull.length : ℚ) / (values.length : ℚ))
    uniqueRatio := round2 ((uniqueCount : ℚ) / (max nonNull.length 1 : ℚ))
    sampleValues := sampleValues
    patterns := detectPatterns values
    statistics :=
      if (inferredType == .num || inferredType == .currency) &&
          !(numericValuesOf values).isEmpty then
        some (calculateNumericStatistics (numericValuesOf values))
      else none }

-- ===========================================================================
-- Dataset metadata (src: analyzeDQI step 2; file identity, hash, timestamps
-- and the wall-clock-dependent anomaly count are environment values outside
-- the embedded fragment and are not fields of the model)
-- ===========================================================================

structure StatisticalSummary where
  totalCells : ℕ
  nullCells : ℤ
  uniqueRows : ℕ
  duplicateRows : ℕ
deriving DecidableEq

structure DatasetMetadata where
  rowCount : ℕ
  columnCount : ℕ
  schema : List ColumnSchema
  statisticalSummary : StatisticalSummary
deriving DecidableEq

def columnValues (rows : List RowObj) (h : String) : List Value :=
  rows.map (fun r => rowGet r h)

/-- src `analyzeDQI` metadata assembly: per-column schemas, the distinct
serialized-row count (`new Set(rows.map(JSON.stringify)).size`, i.e. the
number of distinct rows) and the cell tallies. -/
def buildMetadata (headers : List String) (rows : List RowObj) : DatasetMetadata :=
  let schema := headers.map (fun h => extractColumnSchema h (columnValues rows h))
  let uniqueRows := rows.dedup.length
  { rowCount := rows.length
    columnCount := headers.length
    schema := schema
    statisticalSummary :=
      { totalCells := rows.length * headers.length
        nullCells := (schema.map (fun c => jround (c.nullRatio * (rows.length : ℚ)))).sum
        uniqueRows := uniqueRows
        duplicateRows := rows.length - uniqueRows } }

-- ===========================================================================
-- Dimension scorers (src: DIMENSION_CONFIGS).  Each scorer is embedded as its
-- score computation; the diagnostic `findings` / `impactedColumns` strings do
-- not feed back into any score and are not modelled.
-- ===========================================================================

/-- src completeness scorer: `filledCells / totalCells` accumulated from the
rounded per-column null ratios, then `round(max(0, 100 − (1 − ratio)·150))`. -/
def completenessScorer (rows : List RowObj) (md : DatasetMetadata) : ℤ :=
  let totalCells : ℚ := (md.schema.map (fun _ => (rows.length : ℚ))).sum
  let filledCells : ℚ := (md.schema.map (fun c => (rows.length : ℚ) * (1 - c.nullRatio))).sum
  let completenessRatio := filledCells / totalCells
  jround (max 0 (100 - (1 - completenessRatio) * 150))

/-- Case-variant excess of src's consistency scorer: the number of distinct
original strings beyond one per distinct lowercase form, i.e.
`Σ_groups (variants − 1) = #distinct − #distinct-lowercase`. -/
def caseVariantExcess (strs : List String) : ℤ :=
  (strs.dedup.length : ℤ) - ((strs.map lowerStr).dedup.length : ℤ)

def nonEmptyStringsOf (values : List Value) : List String :=
  values.filterMap (fun v => match v with
    | .str s => if 0 < s.data.length then some s else none
    | _ => none)

/-- src consistency scorer per-column penalty: 30 % of the rows for a mixed
column, 10 % for a multi-pattern column, 5 record-equivalents per case
inconsistency in a string column. -/
def consistencyColPenalty (rows : List RowObj) (c : ColumnSchema) : ℤ :=
  (if c.inferredType == .mixed then jround ((rows.length : ℚ) * (3/10)) else 0) +
  (if 1 < c.patterns.length then jround ((rows.length : ℚ) * (1/10)) else 0) +
  (if c.inferredType == .str then 5 * caseVariantExcess (nonEmptyStringsOf (columnValues rows c.name)) else 0)

/-- src consistency scorer: `round(max(0, 100 − rate·500))` over the
inconsistent-record rate `penalties / (rows·cols)`. -/
def consistencyScorer (rows : List RowObj) (md : DatasetMetadata) : ℤ :=
  let inconsistent : ℤ := (md.schema.map (consistencyColPenalty rows)).sum
  jround (max 0 (100 - ((inconsistent : ℚ) / ((rows.length : ℚ) * (md.schema.length : ℚ))) * 500))

/-- The full-row duplicate loop of the uniqueness scorer: rows beyond the
first occurrence of each serialization (`seen` set over `JSON.stringify`). -/
def dupLoop (seen : List RowObj) (d : ℕ) : List RowObj → ℕ
  | [] => d
  | r :: rest => if r ∈ seen then dupLoop seen (d + 1) rest else dupLoop (r :: seen) d rest

def dupCount (rows : List RowObj) : ℕ := dupLoop [] 0 rows

/-- Identifier columns of the uniqueness scorer: identifier-typed or
id-named. -/
def isIdColumn (c : ColumnSchema) : Bool :=
  c.inferredType == .identifier || strIncludes (lowerStr c.name) "id"

/-- The accumulated `idDuplicateIssues` of the uniqueness scorer. -/
def idDupIssuesLoop (acc : ℚ) : List ColumnSchema → ℚ
  | [] => acc
  | c :: rest =>
    idDupIssuesLoop (if c.uniqueRatio < 1 then acc + (1 - c.uniqueRatio) else acc) rest

def idDupIssues (schema : List ColumnSchema) : ℚ :=
  idDupIssuesLoop 0 (schema.filter isIdColumn)

/-- src uniqueness scorer:
`round(max(0, 100 − duplicateRate·300 − idDuplicateIssues·20))`. -/
def uniquenessScorer (rows : List RowObj) (md : DatasetMetadata) : ℤ :=
  let duplicates := dupCount rows
  let duplicateRate : ℚ := (duplicates : ℚ) / (rows.length : ℚ)
  jround (max 0 (100 - duplicateRate * 300 - idDupIssues md.schema * 20))

def positiveFieldNames : List String :=
  ["amount", "price", "quantity", "count", "total", "balance", "fee", "cost"]

def nullLikeStrings : List String := ["null", "na", "n/a", "none", "undefined", "-", ""]

def isNumValue (v : Value) : Bool := match v with | .num _ => true | _ => false

/-- src validity scorer per-column invalid-record tally: negative (and, for
amount columns, zero) values in positive-semantic fields, 3σ outliers,
null-like string literals, non-numeric entries in amount/price columns. -/
def validityColIssues (rows : List RowObj) (c : ColumnSchema) : ℕ :=
  let values := columnValues rows c.name
  let lname := lowerStr c.name
  (if positiveFieldNames.any (fun f => strIncludes lname f) then
    (values.countP (fun v => match v with | .num q => q < 0 | _ => false)) +
      (let zeroCount := values.countP (fun v => v == .num 0)
       if 0 < zeroCount && strIncludes lname "amount" then zeroCount else 0)
  else 0) +
  (match c.statistics with
   | some st =>
     if 0 < st.stdDev then
       (numericValuesOf values).countP
         (fun v => st.mean + 3 * st.stdDev < v || v < st.mean - 3 * st.stdDev)
     else 0
   | none => 0) +
  (values.countP (fun v => match v with
    | .str s => nullLikeStrings.contains (strTrim (lowerStr s))
    | _ => false)) +
  (if strIncludes lname "amount" || strIncludes lname "price" then
    values.countP (fun v => !(v == .null) && !isNumValue v)
  else 0)

/-- src validity scorer: `round(max(0, 100 − rate·300))` over
`invalidRecords / (rows·cols)`. -/
def validityScorer (rows : List RowObj) (md : DatasetMetadata) : ℤ :=
  let invalid : ℕ := (md.schema.map (validityColIssues rows)).sum
  jround (max 0 (100 - ((invalid : ℚ) / ((rows.length : ℚ) * (md.schema.length : ℚ))) * 300))

/-- src timeliness applicability: at least one date-typed or date-named
column. -/
def timelinessApplicable (md : DatasetMetadata) : Bool :=
  md.schema.any (fun c => c.inferredType == .date || strIncludes (lowerStr c.name) "date")

/-- src accuracy scorer per-column inaccurate-record tally. -/
def accuracyColIssues (rows : List RowObj) (c : ColumnSchema) : ℤ :=
  let values := columnValues rows c.name
  let lname := lowerStr c.name
  (if c.inferredType == .mixed then jround ((rows.length : ℚ) * (2/10)) else 0) +
  (if (strIncludes lname "id" || c.inferredType == .identifier) && c.uniqueRatio < 1 then
    jround ((1 - c.uniqueRatio) * (rows.length : ℚ))
  else 0) +
  (if strIncludes lname "amount" || strIncludes lname "price" || strIncludes lname "quantity" then
    (values.countP (fun v => !(v == .null) && !isNumValue v) : ℤ)
  else 0) +
  (values.countP (fun v => v == .str "") : ℤ)

/-- src accuracy scorer: `round(max(0, 100 − rate·300))`. -/
def accuracyScorer (rows : List RowObj) (md : DatasetMetadata) : ℤ :=
  let inaccurate : ℤ := (md.schema.map (accuracyColIssues rows)).sum
  jround (max 0 (100 - ((inaccurate : ℚ) / ((rows.length : ℚ) * (md.schema.length : ℚ))) * 300))

/-- src integrity applicability: more than 3 columns. -/
def integrityApplicable (md : DatasetMetadata) : Bool :=
  3 < md.columnCount

/-- Foreign-key-like columns of the integrity scorer. -/
def isFkColumn (c : ColumnSchema) : Bool :=
  strIncludes (lowerStr c.name) "_id" ||
  (strEndsWith (lowerStr c.name) "id" && 2 < c.name.data.length) ||
  strIncludes (lowerStr c.name) "merchant" ||
  strIncludes (lowerStr c.name) "customer"

def isNullishCell (v : Value) : Bool := v == .null || v == .str ""

/-- src integrity scorer: orphan nulls in reference columns, rows over half
empty (double weight), the amount-without-currency pattern, a null-bearing
status column; `round(max(0, 100 − rate·100))` over `issues / rows`. -/
def integrityScorer (rows : List RowObj) (md : DatasetMetadata) : ℤ :=
  let totalRecords := rows.length
  let fkIssues : ℤ := ((md.schema.filter isFkColumn).map (fun c =>
    let nullCount := jround (c.nullRatio * (totalRecords : ℚ))
    if 0 < nullCount then nullCount else 0)).sum
  let incompleteRows : ℕ := rows.countP (fun r =>
    let vs := r.map (fun p => p.2)
    ((vs.countP isNullishCell : ℚ) > (vs.length : ℚ) * (1/2) : Bool))
  let hasAmount := md.schema.any (fun c => strIncludes (lowerStr c.name) "amount")
  let hasCurrency := md.schema.any (fun c => strIncludes (lowerStr c.name) "currency")
  let amountIssue : ℤ := if hasAmount && !hasCurrency then jround ((totalRecords : ℚ) * (1/10)) else 0
  let statusIssue : ℤ :=
    match md.schema.find? (fun c => strIncludes (lowerStr c.name) "status") with
    | some st => if 0 < st.nullRatio then jround (st.nullRatio * (totalRecords : ℚ)) else 0
    | none => 0
  let issues : ℤ := fkIssues + (incompleteRows : ℤ) * 2 + amountIssue + statusIssue
  jround (max 0 (100 - ((issues : ℚ) / (totalRecords : ℚ)) * 100))

-- ===========================================================================
-- Dimension registry and composite scoring (src: DIMENSION_CONFIGS,
-- analyzeDQI steps 3–4).  The timeliness scorer reads the wall clock
-- (`new Date()`) and JS `Date`-parses arbitrary strings, which a shallow
-- embedding cannot fix to a value; the registry is therefore parameterized by
-- that one scorer.  No analysed claim depends on its output.
-- ===========================================================================

structure DQIDimension where
  id : String
  name : String
  score : ℤ
  weight : ℚ
  applicable : Bool
deriving DecidableEq

structure DimensionConfig where
  id : String
  name : String
  baseWeight : ℚ
  applicabilityCheck : DatasetMetadata → Bool
  scorer : List RowObj → DatasetMetadata → ℤ

/-- src uniqueness applicability: "Always applicable - uniqueness matters for
all datasets". -/
def uniquenessApplicability (_ : DatasetMetadata) : Bool := true

/-- src `DIMENSION_CONFIGS` (ids, names, base weights, applicability
predicates and scorers, in source order). -/
def DIMENSION_CONFIGS (tscore : List RowObj → DatasetMetadata → ℤ) : List DimensionConfig :=
  [⟨"completeness", "Completeness", 0.20, fun _ => true, completenessScorer⟩,
   ⟨"consistency", "Consistency", 0.15, fun _ => true, consistencyScorer⟩,
   ⟨"uniqueness", "Uniqueness", 0.15, uniquenessApplicability, uniquenessScorer⟩,
   ⟨"validity", "Validity", 0.15, fun _ => true, validityScorer⟩,
   ⟨"timeliness", "Timeliness", 0.10, timelinessApplicable, tscore⟩,
   ⟨"accuracy", "Accuracy", 0.15, fun _ => true, accuracyScorer⟩,
   ⟨"integrity", "Integrity", 0.10, integrityApplicable, integrityScorer⟩]

/-- src analyzeDQI step 3, first loop: score applicable dimensions (weight
still the base weight), emit inapplicable ones with score 0 and weight 0. -/
def buildDimensionsRaw (tscore : List RowObj → DatasetMetadata → ℤ)
    (rows : List RowObj) (md : DatasetMetadata) : List DQIDimension :=
  (DIMENSION_CONFIGS tscore).map (fun cfg =>
    if cfg.applicabilityCheck md then
      { id := cfg.id, name := cfg.name, score := cfg.scorer rows md,
        weight := cfg.baseWeight, applicable := true }
    else
      { id := cfg.id, name := cfg.name, score := 0, weight := 0, applicable := false })

/-- src analyzeDQI step 3, `totalWeight` accumulator: the sum of the base
weights of the applicable dimensions. -/
def totalWeightOf (tscore : List RowObj → DatasetMetadata → ℤ) (md : DatasetMetadata) : ℚ :=
  (((DIMENSION_CONFIGS tscore).filter (fun c => c.applicabilityCheck md)).map
    (fun c => c.baseWeight)).sum

/-- src analyzeDQI step 3, second loop: re-normalize applicable weights to
`round2(weight / totalWeight)`. -/
def buildDimensions (tscore : List RowObj → DatasetMetadata → ℤ)
    (rows : List RowObj) (md : DatasetMetadata) : List DQIDimension :=
  let totalWeight := totalWeightOf tscore md
  (buildDimensionsRaw tscore rows md).map (fun d =>
    if d.applicable then { d with weight := round2 (d.weight / totalWeight) } else d)

/-- src analyzeDQI step 4: `Σ score·weight` over applicable dimensions. -/
def weightedScore (dims : List DQIDimension) : ℚ :=
  ((dims.filter (fun d => d.applicable)).map (fun d => (d.score : ℚ) * d.weight)).sum

def compositeScoreOf (dims : List DQIDimension) : ℤ := jround (weightedScore dims)

-- ===========================================================================
-- analyzeDQI (the async I/O shell, hash, ids, timestamps and the
-- log10-based confidence are environment effects outside the embedded
-- fragment; the embedded report carries the fields the claims speak about)
-- ===========================================================================

structure DQIReportCore where
  metadata : DatasetMetadata
  dimensions : List DQIDimension
  compositeScore : ℤ
  grade : Grade
deriving DecidableEq

/-- src `analyzeDQI` on decoded file content: parse, fail on an empty row set
with the source's error message, otherwise metadata → dimensions → composite
score and grade.  A thrown error surfaces as `Except.error` (the promise
rejection). -/
def analyzeDQI (tscore : List RowObj → DatasetMetadata → ℤ) (content : String) :
    Except String DQIReportCore :=
  let parsed := parseCSVContent content
  if parsed.2.length == 0 then .error "No data found in file"
  else
    let md := buildMetadata parsed.1 parsed.2
    let dims := buildDimensions tscore parsed.2 md
    let composite := compositeScoreOf dims
    .ok { metadata := md, dimensions := dims, compositeScore := composite,
          grade := calculateGrade (composite : ℚ) }

/-- A stand-in timeliness scorer used to instantiate concrete witnesses (the
theorems about the registry hold for every timeliness scorer). -/
def zeroTimelinessScore : List RowObj → DatasetMetadata → ℤ := fun _ _ => 0

-- ===========================================================================
-- Helper lemmas
-- ===========================================================================

lemma jround_nonneg {q : ℚ} (h : 0 ≤ q) : 0 ≤ jround q := by
  unfold jround
  exact Int.le_floor.mpr (by push_cast; linarith)

lemma jround_le_hundred {q : ℚ} (h : q ≤ 100) : jround q ≤ 100 := by
  unfold jround
  have : ⌊q + 1/2⌋ < 101 := Int.floor_lt.mpr (by push_cast; linarith)
  omega

lemma round2_nonneg {q : ℚ} (h : 0 ≤ q) : 0 ≤ round2 q := by
  unfold round2
  have : (0 : ℤ) ≤ jround (q * 100) := jround_nonneg (by linarith)
  positivity

lemma natCast_div_le_one {a b : ℕ} (h : a ≤ b) : ((a : ℚ) / (b : ℚ)) ≤ 1 := by
  rcases Nat.eq_zero_or_pos b with hb | hb
  · subst hb; simp
  · rw [div_le_one (by exact_mod_cast hb)]
    exact_mod_cast h

lemma nullRatio_nonneg (h : String) (values : List Value) :
    0 ≤ (extractColumnSchema h values).nullRatio := by
  show 0 ≤ round2 (1 - ((nonNullValues values).length : ℚ) / (values.length : ℚ))
  refine round2_nonneg ?_
  have hle : (nonNullValues values).length ≤ values.length := List.length_filter_le _ _
  have := natCast_div_le_one (a := (nonNullValues values).length) (b := values.length) hle
  linarith

-- ===========================================================================
-- Claim theorems
-- ===========================================================================

/-- Claim C5: for every composite score `s` in `[0,100]`, `calculateGrade`
yields A iff `s ≥ 90`, B iff `80 ≤ s < 90`, C iff `70 ≤ s < 80`, D iff
`60 ≤ s < 70`, and F iff `s < 60` — inclusive lower bounds at each
threshold (so 90 → A, 89 → B, 70 → C). -/
theorem grade_threshold_boundaries (s : ℚ) (_h0 : 0 ≤ s) (_h1 : s ≤ 100) :
    (calculateGrade s = .A ↔ 90 ≤ s) ∧
    (calculateGrade s = .B ↔ 80 ≤ s ∧ s < 90) ∧
    (calculateGrade s = .C ↔ 70 ≤ s ∧ s < 80) ∧
    (calculateGrade s = .D ↔ 60 ≤ s ∧ s < 70) ∧
    (calculateGrade s = .F ↔ s < 60) := by
  unfold calculateGrade
  split_ifs with hA hB hC hD <;>
    refine ⟨?_, ?_, ?_, ?_, ?_⟩ <;> simp <;>
      first | linarith | (intro; linarith) | (constructor <;> linarith)

/-- Witness for C5 at the boundary score 90 (and, via the iff, grade A). -/
theorem grade_threshold_boundaries_witness :
    (calculateGrade 90 = .A ↔ (90 : ℚ) ≤ 90) ∧
    (calculateGrade 90 = .B ↔ (80 : ℚ) ≤ 90 ∧ (90 : ℚ) < 90) ∧
    (calculateGrade 90 = .C ↔ (70 : ℚ) ≤ 90 ∧ (90 : ℚ) < 80) ∧
    (calculateGrade 90 = .D ↔ (60 : ℚ) ≤ 90 ∧ (90 : ℚ) < 70) ∧
    (calculateGrade 90 = .F ↔ (90 : ℚ) < 60) :=
  grade_threshold_boundaries 90 (by norm_num) (by norm_num)

/-- Claim C8: when parsing yields zero data rows, `analyzeDQI` rejects with
the descriptive "No data found in file" message and produces no report —
for every timeliness scorer and every such file content. -/
theorem no_data_rejection (tscore : List RowObj → DatasetMetadata → ℤ)
    (content : String) (h : (parseCSVContent content).2 = []) :
    analyzeDQI tscore content = .error "No data found in file" := by
  unfold analyzeDQI
  simp only [h]
  rfl

/-- Witness for C8: the empty file parses to zero data rows and is rejected
with the "No data found in file" message. -/
theorem no_data_rejection_witness :
    (parseCSVContent "").2 = [] ∧
    analyzeDQI zeroTimelinessScore "" = .error "No data found in file" :=
  ⟨by decide, no_data_rejection zeroTimelinessScore "" (by decide)⟩

/-- Claim C3: every produced column schema carries at most 3 sample values,
and for a column whose name matches the sensitive-name heuristic every
emitted sample value is the fixed redaction marker, never the raw value. -/
theorem sample_redaction_invariant (header : String) (values : List Value) :
    (extractColumnSchema header values).sampleValues.length ≤ 3 ∧
    (isSensitiveColumn header = true →
      ((extractColumnSchema header values).sampleValues.all
        (fun s => s == redactionMarker)) = true) := by
  constructor
  · show ((((nonNullValues values).take 3).map
      (fun v => redactSensitiveValue (valueToString v) header)).length ≤ 3)
    simp [List.length_take]
  · intro h
    show ((((nonNullValues values).take 3).map
      (fun v => redactSensitiveValue (valueToString v) header)).all
        (fun s => s == redactionMarker)) = true
    simp only [List.all_eq_true, List.mem_map]
    rintro s ⟨v, _, rfl⟩
    simp [redactSensitiveValue, h]

/-- Witness for C3: a column named `card_number` with the value
`4111-1111-1111-1111` emits at most 3 samples, all equal to the marker. -/
theorem sample_redaction_invariant_witness :
    (extractColumnSchema "card_number" [Value.str "4111-1111-1111-1111"]).sampleValues.length ≤ 3 ∧
    ((extractColumnSchema "card_number" [Value.str "4111-1111-1111-1111"]).sampleValues.all
      (fun s => s == redactionMarker)) = true :=
  ⟨(sample_redaction_invariant "card_number" [Value.str "4111-1111-1111-1111"]).1,
   (sample_redaction_invariant "card_number" [Value.str "4111-1111-1111-1111"]).2 (by decide)⟩

/-- Claim C10 (implicit): the emitted samples are exactly the first three
non-null values passed through `redactSensitiveValue`, and any value string
containing a word-boundary-delimited run of 3 or 4 digits (the CVV pattern
`\b\d{3,4}\b`) is redacted to the fixed marker for every column name — e.g. a
year such as `2024`, or `123.45` with a 3-digit integer part. -/
theorem cvv_pattern_redaction (header : String) (values : List Value) :
    (extractColumnSchema header values).sampleValues =
      ((nonNullValues values).take 3).map
        (fun v => redactSensitiveValue (valueToString v) header) ∧
    (∀ s name, cvvTest s = true → redactSensitiveValue s name = redactionMarker) := by
  refine ⟨rfl, fun s name h => ?_⟩
  unfold redactSensitiveValue
  split_ifs with h1 h2
  · rfl
  · rfl
  · simp [h] at h2
  · simp [h] at h2

/-- Witness for C10: the year string `2024` matches the CVV pattern and is
emitted as the marker in a non-sensitive-named column. -/
theorem cvv_pattern_redaction_witness :
    cvvTest "2024" = true ∧ redactSensitiveValue "2024" "year" = redactionMarker :=
  ⟨by decide, (cvv_pattern_redaction "year" []).2 "2024" "year" (by decide)⟩

def defaultDim : DQIDimension := ⟨"", "", 0, 0, false⟩

/-- Claim C6: the Uniqueness dimension's applicability predicate is constantly
true, so in every produced dimension list the uniqueness dimension is
applicable (any position whose dimension is identified as `uniqueness`
carries `applicable = true`). -/
theorem uniqueness_always_applicable (md : DatasetMetadata) :
    uniquenessApplicability md = true ∧
    (∀ (tscore : List RowObj → DatasetMetadata → ℤ) (rows : List RowObj) (i : ℕ),
      ((buildDimensions tscore rows md).getD i defaultDim).id = "uniqueness" →
      ((buildDimensions tscore rows md).getD i defaultDim).applicable = true) := by
  refine ⟨rfl, fun tscore rows i hid => ?_⟩
  cases hT : timelinessApplicable md <;> cases hI : integrityApplicable md <;>
    simp only [buildDimensions, buildDimensionsRaw, DIMENSION_CONFIGS,
      uniquenessApplicability, hT, hI, if_true, if_false, List.map_cons, List.map_nil] at hid ⊢ <;>
    rcases i with _ | _ | _ | _ | _ | _ | _ | i <;> simp_all [List.getD, defaultDim]

def witnessRows : List RowObj := [[("a", Value.str "x")]]

def witnessMd : DatasetMetadata := buildMetadata ["a"] witnessRows

/-- Witness for C6: on a concrete one-column dataset the third produced
dimension is the uniqueness dimension and it is applicable. -/
theorem uniqueness_always_applicable_witness :
    uniquenessApplicability witnessMd = true ∧
    ((buildDimensions zeroTimelinessScore witnessRows witnessMd).getD 2 defaultDim).applicable = true :=
  ⟨(uniqueness_always_applicable witnessMd).1,
   (uniqueness_always_applicable witnessMd).2 zeroTimelinessScore witnessRows 2
     (by with_unfolding_all decide)⟩

def buildStep (rows : List RowObj) (md : DatasetMetadata) (cfg : DimensionConfig) : DQIDimension :=
  if cfg.applicabilityCheck md then
    { id := cfg.id, name := cfg.name, score := cfg.scorer rows md,
      weight := cfg.baseWeight, applicable := true }
  else
    { id := cfg.id, name := cfg.name, score := 0, weight := 0, applicable := false }

def normStep (T : ℚ) (d : DQIDimension) : DQIDimension :=
  if d.applicable then { d with weight := round2 (d.weight / T) } else d

lemma sum_filter_weights (rows : List RowObj) (md : DatasetMetadata) (T : ℚ) :
    ∀ (cfgs : List DimensionConfig),
    ((((cfgs.map (buildStep rows md)).map (normStep T)).filter
        (fun d => d.applicable)).map (fun d => d.weight)).sum =
      ((cfgs.filter (fun c => c.applicabilityCheck md)).map
        (fun c => round2 (c.baseWeight / T))).sum := by
  intro cfgs
  induction cfgs with
  | nil => rfl
  | cons c l ih =>
    by_cases hc : c.applicabilityCheck md = true <;>
      simp only [List.map_cons, List.filter_cons, List.sum_cons, buildStep, normStep, hc,
        Bool.false_eq_true, if_true, ite_true, if_false, ite_false, ih]

lemma buildDimensions_eq_steps (tscore : List RowObj → DatasetMetadata → ℤ)
    (rows : List RowObj) (md : DatasetMetadata) :
    buildDimensions tscore rows md =
      ((DIMENSION_CONFIGS tscore).map (buildStep rows md)).map
        (normStep (totalWeightOf tscore md)) := rfl

lemma step1 (tscore : List RowObj → DatasetMetadata → ℤ)
    (rows : List RowObj) (md : DatasetMetadata) :
    (((buildDimensions tscore rows md).filter (fun d => d.applicable)).map
      (fun d => d.weight)).sum =
    (((DIMENSION_CONFIGS tscore).filter (fun c => c.applicabilityCheck md)).map
      (fun c => round2 (c.baseWeight / totalWeightOf tscore md))).sum := by
  rw [buildDimensions_eq_steps, sum_filter_weights]

lemma proj_pairs (md : DatasetMetadata) (T : ℚ) : ∀ (cfgs : List DimensionConfig),
    ((cfgs.filter (fun c => c.applicabilityCheck md)).map
      (fun c => round2 (c.baseWeight / T))).sum =
    (((cfgs.map (fun c => (c.applicabilityCheck md, c.baseWeight))).filter
      (fun q => q.1)).map (fun q => round2 (q.2 / T))).sum := by
  intro cfgs
  induction cfgs with
  | nil => rfl
  | cons c l ih =>
    by_cases hc : c.applicabilityCheck md = true <;>
      simp only [List.map_cons, List.filter_cons, List.sum_cons, hc,
        Bool.false_eq_true, if_true, ite_true, if_false, ite_false, ih]

lemma proj_base (md : DatasetMetadata) : ∀ (cfgs : List DimensionConfig),
    ((cfgs.filter (fun c => c.applicabilityCheck md)).map (fun c => c.baseWeight)).sum =
    (((cfgs.map (fun c => (c.applicabilityCheck md, c.baseWeight))).filter
      (fun q => q.1)).map (fun q => q.2)).sum := by
  intro cfgs
  induction cfgs with
  | nil => rfl
  | cons c l ih =>
    by_cases hc : c.applicabilityCheck md = true <;>
      simp only [List.map_cons, List.filter_cons, List.sum_cons, hc,
        Bool.false_eq_true, if_true, ite_true, if_false, ite_false, ih]

lemma configs_pairs (tscore : List RowObj → DatasetMetadata → ℤ) (md : DatasetMetadata) :
    (DIMENSION_CONFIGS tscore).map (fun c => (c.applicabilityCheck md, c.baseWeight)) =
    [(true, (0.20 : ℚ)), (true, 0.15), (true, 0.15), (true, 0.15),
     (timelinessApplicable md, 0.10), (true, 0.15), (integrityApplicable md, 0.10)] := rfl

lemma totalW_pairs (tscore : List RowObj → DatasetMetadata → ℤ) (md : DatasetMetadata) :
    totalWeightOf tscore md =
    (([(true, (0.20 : ℚ)), (true, 0.15), (true, 0.15), (true, 0.15),
       (timelinessApplicable md, 0.10), (true, 0.15), (integrityApplicable md, 0.10)].filter
      (fun q => q.1)).map (fun q => q.2)).sum := by
  rw [show totalWeightOf tscore md =
    (((DIMENSION_CONFIGS tscore).filter (fun c => c.applicabilityCheck md)).map
      (fun c => c.baseWeight)).sum from rfl, proj_base, configs_pairs]

/-- Claim C4: in every produced dimension list, the `weight` fields of the
applicable dimensions (each re-normalized to `round2(baseWeight / Σ applicable
base weights)`) sum to 1 up to the 2-decimal rounding epsilon of 0.02 — for
every dataset and every timeliness scorer. -/
theorem weight_normalization_sum (tscore : List RowObj → DatasetMetadata → ℤ)
    (rows : List RowObj) (md : DatasetMetadata) :
    |((((buildDimensions tscore rows md).filter (fun d => d.applicable)).map
        (fun d => d.weight)).sum) - 1| ≤ 1/50 := by
  rw [step1, proj_pairs, configs_pairs, totalW_pairs]
  cases hT : timelinessApplicable md <;> cases hI : integrityApplicable md <;>
    with_unfolding_all decide

/-- Claim C7: the Timeliness dimension is applicable iff some column is
date-typed or date-named; when no such column exists, the produced timeliness
dimension has `applicable = false`, `score = 0`, `weight = 0`, and removing it
does not change the weighted composite sum — for every dataset and every
timeliness scorer. -/
theorem timeliness_applicability_gate (tscore : List RowObj → DatasetMetadata → ℤ)
    (rows : List RowObj) (md : DatasetMetadata) :
    (timelinessApplicable md = true ↔
      ∃ c ∈ md.schema, c.inferredType = .date ∨ strIncludes (lowerStr c.name) "date" = true) ∧
    (timelinessApplicable md = false →
      (buildDimensions tscore rows md).filter (fun d => d.id == "timeliness") =
        [{ id := "timeliness", name := "Timeliness", score := 0, weight := 0, applicable := false }] ∧
      weightedScore (buildDimensions tscore rows md) =
        weightedScore ((buildDimensions tscore rows md).filter (fun d => !(d.id == "timeliness")))) := by
  constructor
  · simp [timelinessApplicable, List.any_eq_true]
  · intro h
    cases hI : integrityApplicable md <;>
      simp [buildDimensions, buildDimensionsRaw, DIMENSION_CONFIGS, uniquenessApplicability,
        weightedScore, h, hI]

/-- Witness for C7: a concrete dataset with a single non-date column named
`a` — Timeliness is inapplicable, its entry is `(0, 0, false)` and dropping
it leaves the weighted composite sum unchanged. -/
theorem timeliness_applicability_gate_witness :
    (buildDimensions zeroTimelinessScore witnessRows witnessMd).filter
        (fun d => d.id == "timeliness") =
      [{ id := "timeliness", name := "Timeliness", score := 0, weight := 0, applicable := false }] ∧
    weightedScore (buildDimensions zeroTimelinessScore witnessRows witnessMd) =
      weightedScore ((buildDimensions zeroTimelinessScore witnessRows witnessMd).filter
        (fun d => !(d.id == "timeliness"))) :=
  (timeliness_applicability_gate zeroTimelinessScore witnessRows witnessMd).2
    (by with_unfolding_all decide)

/-- Modelled from the spec wording of the completeness claim (refinement
comparison definition, not source code): `defectRate = 1 − filled/total` with
`filled` the count of non-null cells, `score = round(100 − defectRate×150)`
clamped to `[0,100]`. -/
def specCompletenessScore (headers : List String) (rows : List RowObj) : ℤ :=
  let totalCells : ℚ := (rows.length : ℚ) * (headers.length : ℚ)
  let filledCells : ℚ :=
    (((headers.map (fun h => (columnValues rows h).countP (fun v => !(v == Value.null)))).sum : ℕ) : ℚ)
  let defectRate : ℚ := 1 - filledCells / totalCells
  min 100 (max 0 (jround (100 - defectRate * 150)))

def csvMissing : String := "a\n1\n2\n3\n4\n5\n-\n-\n-\n-"
def headersMissing : List String := (parseCSVContent csvMissing).1
def rowsMissing : List RowObj := (parseCSVContent csvMissing).2

/-- Counterexample for C2: a 9-row single-column dataset with four null cells.
The engine reconstitutes its filled-cell total from the 2-decimal-rounded
per-column null ratio (`round((4/9)·100)/100 = 0.44` here), giving
`round(max(0, 100 − 0.44·150)) = round(34) = 34`, while the claim's raw
filled-cells/total-cells formula gives `round(max(0, 100 − (4/9)·150))`
`= round(33.33…) = 33`. Every `Math.round` argument along both traces sits
well away from a half-integer (44.44…, 34 + O(1e-13), 33.33…), so the IEEE
double evaluation of the source produces the same two values. -/
theorem completeness_formula_counterexample :
    completenessScorer rowsMissing (buildMetadata headersMissing rowsMissing) = 34 ∧
    specCompletenessScore headersMissing rowsMissing = 33 ∧
    completenessScorer rowsMissing (buildMetadata headersMissing rowsMissing) ≠
      specCompletenessScore headersMissing rowsMissing := by
  refine ⟨?_, ?_, ?_⟩ <;> with_unfolding_all decide

/-- Claim C2 (amended): for the 9-row single-column CSV with four null cells,
the column's stored `nullRatio` is the 2-decimal rounding `0.44` of the raw
null rate `4/9`, and the Completeness score equals
`round(max(0, 100 − 0.44×150)) = 34`, not the claim's raw-cell
`round(max(0, 100 − (4/9)×150)) = 33`: the scorer reconstitutes filled cells
as `rows×(1 − nullRatio)` from the already-rounded per-column null ratios, so
the score tracks the rounded ratios and coincides with the raw
filled-cells/total-cells formula only when every column's null ratio is
exactly a 2-decimal fraction. -/
theorem completeness_formula_amended :
    ((buildMetadata headersMissing rowsMissing).schema.map (fun c => c.nullRatio)) =
      [(0.44 : ℚ)] ∧
    completenessScorer rowsMissing (buildMetadata headersMissing rowsMissing) =
      jround (max 0 (100 - (0.44 : ℚ) * 150)) ∧
    completenessScorer rowsMissing (buildMetadata headersMissing rowsMissing) = 34 := by
  refine ⟨?_, ?_, ?_⟩ <;> with_unfolding_all decide

def csvDupFive : String :=
  "id,amount,date\n1,10,2024-01-01\n2,20,2024-01-02\n2,20,2024-01-02\n4,40,2024-01-04\n5,50,2024-01-05"

def headersDupFive : List String := (parseCSVContent csvDupFive).1

def rowsDupFive : List RowObj := (parseCSVContent csvDupFive).2

/-- Counterexample for C1: on a 5-row `id,amount,date` CSV whose row 3 repeats
row 2 exactly (and no other repeats), `duplicateRows = 1` holds but the
Uniqueness score is not 0 as the claim computes — indeed
`max(0, 100 − 0.2×300)` itself is 40, not 0, and the scorer additionally
subtracts the identifier-column penalty, landing at 36. -/
theorem uniqueness_penalty_counterexample :
    (buildMetadata headersDupFive rowsDupFive).statisticalSummary.duplicateRows = 1 ∧
    uniquenessScorer rowsDupFive (buildMetadata headersDupFive rowsDupFive) ≠ 0 ∧
    uniquenessScorer rowsDupFive (buildMetadata headersDupFive rowsDupFive) ≠
      jround (max 0 (100 - (2/10 : ℚ) * 300)) := by
  refine ⟨?_, ?_, ?_⟩ <;> with_unfolding_all decide

/-- Claim C1 (amended): for the 5-row `id,amount,date` CSV in which row 3
repeats row 2 exactly (and no other repeats, the other ids distinct), the
analysis reports `duplicateRows = 1`, and the Uniqueness score equals
`round(max(0, 100 − duplicateRate×300 − idNonUniqueRatio×20))`
`= round(max(0, 100 − 0.2×300 − 0.2×20)) = 36` (the id column's uniqueRatio
is 0.8), not 0 — the claim's `max(0, 100 − 0.2×300) = 0` arithmetic is wrong
(that expression is 40) and it omits the identifier penalty that the formula
it cites includes. -/
theorem uniqueness_penalty_amended :
    (buildMetadata headersDupFive rowsDupFive).statisticalSummary.duplicateRows = 1 ∧
    uniquenessScorer rowsDupFive (buildMetadata headersDupFive rowsDupFive) =
      jround (max 0 (100 - (1/5 : ℚ) * 300 - (1 - 4/5) * 20)) ∧
    uniquenessScorer rowsDupFive (buildMetadata headersDupFive rowsDupFive) = 36 := by
  refine ⟨?_, ?_, ?_⟩ <;> with_unfolding_all decide

lemma dupLoop_toFinset (rows : List RowObj) : ∀ (seen : List RowObj) (d : ℕ),
    dupLoop seen d rows = d + rows.length - (rows.toFinset \ seen.toFinset).card := by
  induction rows with
  | nil => intro seen d; simp [dupLoop]
  | cons r rest ih =>
    intro seen d
    by_cases hr : r ∈ seen
    · have hmem : r ∈ seen.toFinset := List.mem_toFinset.mpr hr
      rw [dupLoop, if_pos hr, ih seen (d + 1), List.toFinset_cons,
        Finset.insert_sdiff_of_mem _ hmem]
      have hle : (rest.toFinset \ seen.toFinset).card ≤ rest.length :=
        le_trans (Finset.card_le_card Finset.sdiff_subset) rest.toFinset_card_le
      simp only [List.length_cons]
      omega
    · have hmem : r ∉ seen.toFinset := fun h => hr (List.mem_toFinset.mp h)
      rw [dupLoop, if_neg hr, ih (r :: seen) d, List.toFinset_cons, List.toFinset_cons,
        Finset.sdiff_insert, Finset.insert_sdiff_of_not_mem _ hmem]
      have hle : (rest.toFinset \ seen.toFinset).card ≤ rest.length :=
        le_trans (Finset.card_le_card Finset.sdiff_subset) rest.toFinset_card_le
      by_cases hin : r ∈ rest.toFinset \ seen.toFinset
      · rw [Finset.card_erase_of_mem hin, Finset.card_insert_of_mem hin]
        have hpos : 1 ≤ (rest.toFinset \ seen.toFinset).card := Finset.card_pos.mpr ⟨r, hin⟩
        simp only [List.length_cons]
        omega
      · rw [Finset.erase_eq_of_not_mem hin, Finset.card_insert_of_not_mem hin]
        simp only [List.length_cons]
        omega

/-- The uniqueness scorer's seen-set loop counts exactly the rows beyond the
first occurrence of each distinct row. -/
lemma dupCount_eq_sub_card (rows : List RowObj) :
    dupCount rows = rows.length - rows.toFinset.card := by
  have := dupLoop_toFinset rows [] 0
  simpa [dupCount, Finset.sdiff_empty] using this

lemma dupCount_perm {rows rows' : List RowObj} (hp : rows.Perm rows') :
    dupCount rows = dupCount rows' := by
  rw [dupCount_eq_sub_card, dupCount_eq_sub_card, hp.length_eq,
    List.toFinset_eq_of_perm _ _ hp]

lemma isEmpty_congr {α : Type} {l1 l2 : List α} (h : l1.length = l2.length) :
    l1.isEmpty = l2.isEmpty := by
  cases l1 <;> cases l2 <;> simp_all

lemma inferColumnType_perm (name : String) {v1 v2 : List Value} (hp : v1.Perm v2) :
    inferColumnType v1 name = inferColumnType v2 name := by
  have hpf : (nonNullValues v1).Perm (nonNullValues v2) := hp.filter _
  have hcount : ∀ p, (nonNullValues v1).countP p = (nonNullValues v2).countP p :=
    fun p => List.Perm.countP_eq p hpf
  have hlen : (nonNullValues v1).length = (nonNullValues v2).length := hpf.length_eq
  have htal : ∀ b, typeTallies b (nonNullValues v1) = typeTallies b (nonNullValues v2) := by
    intro b
    unfold typeTallies
    simp only [hcount]
  simp only [inferColumnType, isEmpty_congr hlen, htal, hlen]

lemma nullRatio_perm (name : String) {v1 v2 : List Value} (hp : v1.Perm v2) :
    (extractColumnSchema name v1).nullRatio = (extractColumnSchema name v2).nullRatio := by
  have hpf : (nonNullValues v1).Perm (nonNullValues v2) := hp.filter _
  show round2 (1 - ((nonNullValues v1).length : ℚ) / (v1.length : ℚ)) =
    round2 (1 - ((nonNullValues v2).length : ℚ) / (v2.length : ℚ))
  rw [hpf.length_eq, hp.length_eq]

lemma uniqueRatio_perm (name : String) {v1 v2 : List Value} (hp : v1.Perm v2) :
    (extractColumnSchema name v1).uniqueRatio = (extractColumnSchema name v2).uniqueRatio := by
  have hpf : (nonNullValues v1).Perm (nonNullValues v2) := hp.filter _
  have hded : ((nonNullValues v1).map valueToString).dedup.length =
      ((nonNullValues v2).map valueToString).dedup.length :=
    ((hpf.map valueToString).dedup).length_eq
  show round2 ((((nonNullValues v1).map valueToString).dedup.length : ℚ) /
      (max ((nonNullValues v1).length : ℚ) 1)) =
    round2 ((((nonNullValues v2).map valueToString).dedup.length : ℚ) /
      (max ((nonNullValues v2).length : ℚ) 1))
  rw [hded, hpf.length_eq]

lemma idDupIssuesLoop_closed : ∀ (l : List ColumnSchema) (acc : ℚ),
    idDupIssuesLoop acc l =
      acc + (l.map (fun c => if c.uniqueRatio < 1 then 1 - c.uniqueRatio else 0)).sum := by
  intro l
  induction l with
  | nil => intro acc; simp [idDupIssuesLoop]
  | cons c rest ih =>
    intro acc
    rw [idDupIssuesLoop, ih]
    by_cases hc : c.uniqueRatio < 1
    · simp [hc]
      ring
    · simp [hc]

/-- The uniqueness scorer's identifier-penalty accumulator depends only on
each column's name, inferred type and unique ratio. -/
lemma idDupIssues_congr {s s' : List ColumnSchema}
    (h : s.map (fun c => (c.name, c.inferredType, c.uniqueRatio)) =
      s'.map (fun c => (c.name, c.inferredType, c.uniqueRatio))) :
    idDupIssues s = idDupIssues s' := by
  induction s generalizing s' with
  | nil =>
    cases s' with
    | nil => rfl
    | cons a t => simp at h
  | cons a t ih =>
    cases s' with
    | nil => simp at h
    | cons a' t' =>
      simp only [List.map_cons, List.cons.injEq, Prod.mk.injEq] at h
      obtain ⟨⟨hname, htype, hratio⟩, htail⟩ := h
      unfold idDupIssues
      have hid : isIdColumn a = isIdColumn a' := by
        unfold isIdColumn
        rw [hname, htype]
      by_cases ha : isIdColumn a = true
      · rw [List.filter_cons_of_pos ha, List.filter_cons_of_pos (hid ▸ ha)]
        rw [idDupIssuesLoop_closed, idDupIssuesLoop_closed]
        have hrest := ih htail
        unfold idDupIssues at hrest
        rw [idDupIssuesLoop_closed, idDupIssuesLoop_closed] at hrest
        simp only [List.map_cons, List.sum_cons, hratio]
        simp only [zero_add] at hrest ⊢
        rw [hrest]
      · have ha' : ¬(isIdColumn a' = true) := fun hh => ha (hid ▸ hh)
        rw [List.filter_cons_of_neg ha, List.filter_cons_of_neg ha']
        exact ih htail

/-- Claim C9: permuting the data rows changes neither the reported
`duplicateRows` count nor the Uniqueness dimension score (duplicate detection
keys on the serialized row, so only the multiset of rows matters, and every
schema quantity the scorer reads is order-insensitive). -/
theorem duplicate_detection_perm_invariant (headers : List String)
    (rows rows' : List RowObj) (hp : rows.Perm rows') :
    (buildMetadata headers rows).statisticalSummary.duplicateRows =
      (buildMetadata headers rows').statisticalSummary.duplicateRows ∧
    uniquenessScorer rows (buildMetadata headers rows) =
      uniquenessScorer rows' (buildMetadata headers rows') := by
  have hded : rows.dedup.length = rows'.dedup.length := (hp.dedup).length_eq
  constructor
  · show rows.length - rows.dedup.length = rows'.length - rows'.dedup.length
    rw [hp.length_eq, hded]
  · have hschema : (buildMetadata headers rows).schema.map
        (fun c => (c.name, c.inferredType, c.uniqueRatio)) =
      (buildMetadata headers rows').schema.map
        (fun c => (c.name, c.inferredType, c.uniqueRatio)) := by
      show (headers.map (fun h => extractColumnSchema h (columnValues rows h))).map _ =
        (headers.map (fun h => extractColumnSchema h (columnValues rows' h))).map _
      rw [List.map_map, List.map_map]
      apply List.map_congr_left
      intro h _
      have hcp : (columnValues rows h).Perm (columnValues rows' h) := hp.map _
      simp only [Function.comp]
      rw [Prod.mk.injEq, Prod.mk.injEq]
      refine ⟨rfl, inferColumnType_perm h hcp, uniqueRatio_perm h hcp⟩
    unfold uniquenessScorer
    rw [dupCount_perm hp, hp.length_eq, idDupIssues_congr hschema]

def rowA : RowObj := [("a", Value.num 1)]

def rowB : RowObj := [("a", Value.num 2)]

/-- Witness for C9: shuffling a concrete 3-row dataset (one duplicated row)
leaves `duplicateRows` and the Uniqueness score unchanged. -/
theorem duplicate_detection_perm_invariant_witness :
    (buildMetadata ["a"] [rowA, rowB, rowA]).statisticalSummary.duplicateRows =
      (buildMetadata ["a"] [rowA, rowA, rowB]).statisticalSummary.duplicateRows ∧
    uniquenessScorer [rowA, rowB, rowA] (buildMetadata ["a"] [rowA, rowB, rowA]) =
      uniquenessScorer [rowA, rowA, rowB] (buildMetadata ["a"] [rowA, rowA, rowB]) :=
  duplicate_detection_perm_invariant ["a"] [rowA, rowB, rowA] [rowA, rowA, rowB]
    (by with_unfolding_all decide)
